import Mathlib

/-!
# Verification of the NSM driver communication layer

A shallow embedding of `nsm-driver/src/lib.rs` from the
`aws-nitro-enclaves-nsm-api` repository.  The layer orchestrates a
bounded request/response exchange with the NitroSecureModule device:
it CBOR-encodes a request, validates its size, performs one `ioctl()`
exchange through a platform abstraction, and interprets the outcome
into a structured response.

The external collaborators are modelled as parameters:
* the CBOR serializer (`serde_cbor::to_vec`) as `to_vec`, returning
  `none` where the Rust serializer returns `Err` (which the driver
  unwraps, i.e. panics);
* the CBOR deserializer (`serde_cbor::from_slice`) as `parse`,
  returning `none` where the Rust deserializer returns `Err`;
* the platform `ioctl` exchange as a function from a descriptor and a
  message to the updated response buffer and a status code.

Panics are modelled by `Option`: a result of `none` means the Rust
function panicked instead of returning.
-/

/-- Modelled from the spec: `ErrorCode` is the closed enumeration of
failure kinds carried by the error response variant (at minimum
input-too-large and internal-error); the enumeration itself lives in
the external `nsm_io` message-codec crate. -/
inductive ErrorCode where
  | InputTooLarge : ErrorCode
  | InternalError : ErrorCode
deriving DecidableEq, Repr

/-- Modelled from the spec: `Response` is an opaque tagged value, one
variant of which is an error carrying an `ErrorCode`; the concrete
catalog of non-error variants is owned by the external `nsm_io` crate
and is abstracted here as a payload type `α`. -/
inductive Response (α : Type) where
  | Payload : α → Response α
  | Error : ErrorCode → Response α
deriving DecidableEq, Repr

/-- Source: `pub const NSM_REQUEST_MAX_SIZE: usize = 0x1000;` -/
def NSM_REQUEST_MAX_SIZE : Nat := 0x1000

/-- Source: `pub const NSM_RESPONSE_MAX_SIZE: usize = 0x3000;` -/
def NSM_RESPONSE_MAX_SIZE : Nat := 0x3000

/-- NSM message structure to be used with `ioctl()`: a borrowed
immutable request region and a borrowed mutable response region
(`pub struct NsmMessage<'a>`).  Bytes are modelled as `Nat`. -/
structure NsmMessage where
  request : List Nat
  response : List Nat
deriving DecidableEq, Repr

/-- The platform exchange operation (`Platform::nsm_ioctl`): given a
descriptor and a message, it writes into the message's response region
in place and reports `none` on success or `some errno` on failure.  It
is modelled as returning the new content of the response region
together with the status. -/
def IoctlFn : Type := Int → NsmMessage → List Nat × Option Int

/-- Source: `fn nsm_encode_request_to_cbor(request: Request) -> Vec<u8>`:
`serde_cbor::to_vec(&request).unwrap()`.  The serializer `to_vec` is
external; `unwrap` panics on `Err`, modelled as `none`. -/
def nsm_encode_request_to_cbor {Req : Type} (to_vec : Req → Option (List Nat))
    (request : Req) : Option (List Nat) :=
  to_vec request

/-- Source: `fn nsm_decode_response_from_cbor(response_data: &[u8]) -> Response`:
match on `serde_cbor::from_slice`, returning the decoded response on
`Ok` and `Response::Error(ErrorCode::InternalError)` on `Err`. -/
def nsm_decode_response_from_cbor {α : Type} (parse : List Nat → Option (Response α))
    (response_data : List Nat) : Response α :=
  match parse response_data with
  | some response => response
  | none => Response.Error ErrorCode.InternalError

/-- Source: `pub fn nsm_process_request<P: Platform>(fd: i32, request: Request) -> Response`:
encode the request; return `InputTooLarge` if the encoding exceeds
`NSM_REQUEST_MAX_SIZE`; otherwise allocate a zeroed response buffer of
`NSM_RESPONSE_MAX_SIZE` bytes, perform the exchange, and interpret the
status: success decodes the response region, failure code 90 maps to
`InputTooLarge`, any other failure code to `InternalError`.  A `none`
result models a panic (the `unwrap` inside the encoder). -/
def nsm_process_request {Req α : Type} (ioctl : IoctlFn)
    (to_vec : Req → Option (List Nat)) (parse : List Nat → Option (Response α))
    (fd : Int) (request : Req) : Option (Response α) :=
  match nsm_encode_request_to_cbor to_vec request with
  | none => none
  | some cbor_request =>
    if cbor_request.length > NSM_REQUEST_MAX_SIZE then
      some (Response.Error ErrorCode.InputTooLarge)
    else
      let cbor_response : List Nat := List.replicate NSM_RESPONSE_MAX_SIZE 0
      let message : NsmMessage := ⟨cbor_request, cbor_response⟩
      let result := ioctl fd message
      match result.2 with
      | none => some (nsm_decode_response_from_cbor parse result.1)
      | some errno =>
        if errno = 90 then some (Response.Error ErrorCode.InputTooLarge)
        else some (Response.Error ErrorCode.InternalError)

/-- Instrumented version of `nsm_process_request` that additionally
records the messages handed to the platform exchange operation, to
make "the exchange is (never) invoked" observable.  Its first
component agrees with `nsm_process_request`
(`nsm_process_request_trace_fst`). -/
def nsm_process_request_trace {Req α : Type} (ioctl : IoctlFn)
    (to_vec : Req → Option (List Nat)) (parse : List Nat → Option (Response α))
    (fd : Int) (request : Req) : Option (Response α) × List NsmMessage :=
  match nsm_encode_request_to_cbor to_vec request with
  | none => (none, [])
  | some cbor_request =>
    if cbor_request.length > NSM_REQUEST_MAX_SIZE then
      (some (Response.Error ErrorCode.InputTooLarge), [])
    else
      let cbor_response : List Nat := List.replicate NSM_RESPONSE_MAX_SIZE 0
      let message : NsmMessage := ⟨cbor_request, cbor_response⟩
      let result := ioctl fd message
      match result.2 with
      | none => (some (nsm_decode_response_from_cbor parse result.1), [message])
      | some errno =>
        if errno = 90 then (some (Response.Error ErrorCode.InputTooLarge), [message])
        else (some (Response.Error ErrorCode.InternalError), [message])

/-- Log levels used by the lifecycle operations (`debug!` and `error!`). -/
inductive LogLevel where
  | debug : LogLevel
  | err : LogLevel
deriving DecidableEq, Repr

/-- Source: `pub fn nsm_init() -> i32`: attempt to open the device file in
read-write mode.  The operating-system open (including
`into_raw_fd`) is external and modelled by `open_dev : Except Nat Int`
(`Except.error e` for an I/O error `e`).  On success the raw
descriptor is returned and a debug message logged; on failure the
sentinel `-1` is returned and an error message logged. -/
def nsm_init (open_dev : Except Nat Int) : Int × LogLevel :=
  match open_dev with
  | Except.ok fd => (fd, LogLevel.debug)
  | Except.error _ => (-1, LogLevel.err)

/-- Source: `pub fn nsm_exit(fd: i32)`: close the descriptor.  The
operating-system close is external and modelled by
`close_fn : Int → Except Nat Unit`.  The result is only logged; the
function returns unit in every case. -/
def nsm_exit (close_fn : Int → Except Nat Unit) (fd : Int) : Unit × LogLevel :=
  match close_fn fd with
  | Except.ok _ => ((), LogLevel.debug)
  | Except.error _ => ((), LogLevel.err)

/-- The instrumented orchestrator computes the same response as the
plain one. -/
theorem nsm_process_request_trace_fst {Req α : Type} (ioctl : IoctlFn)
    (to_vec : Req → Option (List Nat)) (parse : List Nat → Option (Response α))
    (fd : Int) (request : Req) :
    (nsm_process_request_trace ioctl to_vec parse fd request).1 =
      nsm_process_request ioctl to_vec parse fd request := by
  unfold nsm_process_request_trace nsm_process_request
  cases h : nsm_encode_request_to_cbor to_vec request with
  | none => rfl
  | some cbor_request =>
    by_cases hlen : cbor_request.length > NSM_REQUEST_MAX_SIZE
    · simp [hlen]
    · simp only [hlen, if_false]
      cases (ioctl fd ⟨cbor_request, List.replicate NSM_RESPONSE_MAX_SIZE 0⟩).2 with
      | none => rfl
      | some errno =>
        by_cases h90 : errno = 90 <;> simp [h90]

/-- C1: for every request whose CBOR-encoded length exceeds 4096 bytes
(`NSM_REQUEST_MAX_SIZE`), `nsm_process_request` returns
`Response.Error ErrorCode.InputTooLarge` immediately and the platform
exchange (`nsm_ioctl`) is never invoked (empty call trace), so no side
effects occur before the return. -/
theorem C1_oversized_request_short_circuits {Req α : Type} (ioctl : IoctlFn)
    (to_vec : Req → Option (List Nat)) (parse : List Nat → Option (Response α))
    (fd : Int) (request : Req) (bytes : List Nat)
    (hencode : nsm_encode_request_to_cbor to_vec request = some bytes)
    (hlarge : bytes.length > NSM_REQUEST_MAX_SIZE) :
    nsm_process_request_trace ioctl to_vec parse fd request =
      (some (Response.Error ErrorCode.InputTooLarge), []) := by
  unfold nsm_process_request_trace
  rw [hencode]
  simp [hlarge]

/-- Witness for C1 at a request encoding to 4097 bytes. -/
theorem C1_oversized_request_short_circuits_witness :
    nsm_process_request_trace (fun _ _ => ([], none))
      (fun _ : Unit => some (List.replicate 4097 0))
      (fun _ => (none : Option (Response Unit))) 0 () =
      (some (Response.Error ErrorCode.InputTooLarge), []) :=
  C1_oversized_request_short_circuits _ _ _ 0 () (List.replicate 4097 0) rfl
    (by rw [List.length_replicate]; decide)

/-- C2: for every handle and request within the size bound, if the
platform exchange reports a failure code, the result is
`Response.Error ErrorCode.InputTooLarge` exactly when the reported
code equals 90, and `Response.Error ErrorCode.InternalError` for every
other nonzero reported code. -/
theorem C2_failure_code_mapping {Req α : Type} (ioctl : IoctlFn)
    (to_vec : Req → Option (List Nat)) (parse : List Nat → Option (Response α))
    (fd : Int) (request : Req) (bytes newresp : List Nat) (code : Int)
    (hencode : nsm_encode_request_to_cbor to_vec request = some bytes)
    (hsize : bytes.length ≤ NSM_REQUEST_MAX_SIZE)
    (hioctl : ioctl fd ⟨bytes, List.replicate NSM_RESPONSE_MAX_SIZE 0⟩ =
      (newresp, some code))
    (_hnz : code ≠ 0) :
    (nsm_process_request ioctl to_vec parse fd request =
        some (Response.Error ErrorCode.InputTooLarge) ↔ code = 90) ∧
    (code ≠ 90 → nsm_process_request ioctl to_vec parse fd request =
        some (Response.Error ErrorCode.InternalError)) := by
  unfold nsm_process_request
  rw [hencode]
  simp only [Nat.not_lt.mpr hsize, gt_iff_lt, if_false]
  rw [hioctl]
  by_cases h90 : code = 90 <;> simp [h90]

/-- Witness for C2 at failure code 5. -/
theorem C2_failure_code_mapping_witness :
    (nsm_process_request (fun _ _ => ([], some 5)) (fun _ : Unit => some [])
        (fun _ => (none : Option (Response Unit))) 0 () =
        some (Response.Error ErrorCode.InputTooLarge) ↔ (5 : Int) = 90) ∧
    ((5 : Int) ≠ 90 → nsm_process_request (fun _ _ => ([], some 5))
        (fun _ : Unit => some []) (fun _ => (none : Option (Response Unit))) 0 () =
        some (Response.Error ErrorCode.InternalError)) :=
  C2_failure_code_mapping _ _ _ 0 () [] [] 5 rfl (by decide) rfl (by decide)

/-- C3: for every request within the size bound, if the platform
exchange reports success after writing `N ≤ 12288` bytes into the
output region with the remainder left zero, the orchestrator decodes
the entire 12288-byte output region (padding included) and returns
exactly the response decoded from it. -/
theorem C3_success_decodes_entire_region {Req α : Type} (ioctl : IoctlFn)
    (to_vec : Req → Option (List Nat)) (parse : List Nat → Option (Response α))
    (fd : Int) (request : Req) (bytes written : List Nat) (r : Response α)
    (hencode : nsm_encode_request_to_cbor to_vec request = some bytes)
    (hsize : bytes.length ≤ NSM_REQUEST_MAX_SIZE)
    (hN : written.length ≤ NSM_RESPONSE_MAX_SIZE)
    (hioctl : ioctl fd ⟨bytes, List.replicate NSM_RESPONSE_MAX_SIZE 0⟩ =
      (written ++ List.replicate (NSM_RESPONSE_MAX_SIZE - written.length) 0, none))
    (hparse : parse (written ++ List.replicate (NSM_RESPONSE_MAX_SIZE - written.length) 0)
      = some r) :
    (written ++ List.replicate (NSM_RESPONSE_MAX_SIZE - written.length) 0).length
      = NSM_RESPONSE_MAX_SIZE ∧
    nsm_process_request ioctl to_vec parse fd request = some r := by
  constructor
  · simp [Nat.add_sub_cancel' hN]
  · unfold nsm_process_request
    rw [hencode]
    simp only [Nat.not_lt.mpr hsize, gt_iff_lt, if_false]
    rw [hioctl]
    simp [nsm_decode_response_from_cbor, hparse]

/-- Witness for C3 with a success exchange writing zero bytes and a
parser accepting the all-zero 12288-byte region. -/
theorem C3_success_decodes_entire_region_witness :
    ((([] : List Nat) ++ List.replicate (NSM_RESPONSE_MAX_SIZE - List.length ([] : List Nat)) 0).length
      = NSM_RESPONSE_MAX_SIZE) ∧
    nsm_process_request (fun _ m => (m.response, none)) (fun _ : Unit => some [])
      (fun _ => some (Response.Payload 0)) 0 () = some (Response.Payload 0) :=
  C3_success_decodes_entire_region _ _ _ 0 () [] [] (Response.Payload 0) rfl
    (by decide) (by decide) rfl rfl

/-- C4: `nsm_decode_response_from_cbor` is total: every byte sequence
the external parser rejects decodes to
`Response.Error ErrorCode.InternalError` (no parse failure propagates,
no abort), and every byte sequence it accepts decodes to the parsed
response. -/
theorem C4_decode_always_returns {α : Type} (parse : List Nat → Option (Response α))
    (bytes : List Nat) :
    (parse bytes = none →
      nsm_decode_response_from_cbor parse bytes = Response.Error ErrorCode.InternalError) ∧
    (∀ r, parse bytes = some r → nsm_decode_response_from_cbor parse bytes = r) := by
  constructor
  · intro h
    simp [nsm_decode_response_from_cbor, h]
  · intro r h
    simp [nsm_decode_response_from_cbor, h]

/-- Witness for C4 at the empty byte sequence with a rejecting parser. -/
theorem C4_decode_always_returns_witness :
    nsm_decode_response_from_cbor (fun _ => (none : Option (Response Unit))) [] =
      Response.Error ErrorCode.InternalError :=
  (C4_decode_always_returns (fun _ => (none : Option (Response Unit))) []).1 rfl

/-- C5: whenever the exchange step is reached, the platform is invoked
exactly once, and the output region handed to it is freshly built for
this call, zero-initialized, and exactly `NSM_RESPONSE_MAX_SIZE`
(12288) bytes long. -/
theorem C5_output_region_zeroed_fixed_size {Req α : Type} (ioctl : IoctlFn)
    (to_vec : Req → Option (List Nat)) (parse : List Nat → Option (Response α))
    (fd : Int) (request : Req) (bytes : List Nat)
    (hencode : nsm_encode_request_to_cbor to_vec request = some bytes)
    (hsize : bytes.length ≤ NSM_REQUEST_MAX_SIZE) :
    ∃ msg : NsmMessage,
      (nsm_process_request_trace ioctl to_vec parse fd request).2 = [msg] ∧
      msg.request = bytes ∧
      msg.response = List.replicate NSM_RESPONSE_MAX_SIZE 0 ∧
      msg.response.length = NSM_RESPONSE_MAX_SIZE ∧
      ∀ b ∈ msg.response, b = 0 := by
  refine ⟨⟨bytes, List.replicate NSM_RESPONSE_MAX_SIZE 0⟩, ?_, rfl, rfl, by simp, ?_⟩
  · unfold nsm_process_request_trace
    rw [hencode]
    simp only [Nat.not_lt.mpr hsize, gt_iff_lt, if_false]
    cases h : (ioctl fd ⟨bytes, List.replicate NSM_RESPONSE_MAX_SIZE 0⟩).2 with
    | none => rfl
    | some errno => by_cases h90 : errno = 90 <;> simp [h90]
  · intro b hb
    exact List.eq_of_mem_replicate hb

/-- Witness for C5 with an empty encoded request. -/
theorem C5_output_region_zeroed_fixed_size_witness :
    ∃ msg : NsmMessage,
      (nsm_process_request_trace (fun _ _ => ([], none)) (fun _ : Unit => some [])
        (fun _ => (none : Option (Response Unit))) 0 ()).2 = [msg] ∧
      msg.request = [] ∧
      msg.response = List.replicate NSM_RESPONSE_MAX_SIZE 0 ∧
      msg.response.length = NSM_RESPONSE_MAX_SIZE ∧
      ∀ b ∈ msg.response, b = 0 :=
  C5_output_region_zeroed_fixed_size _ _ _ 0 () [] rfl (by decide)

/-- C6: `nsm_init` returns a handle that is nonnegative exactly when
opening the device in read-write mode succeeds (raw descriptors being
nonnegative), and returns the sentinel -1 on failure; the failure is
reported only through the returned integer, never a typed error. -/
theorem C6_init_sentinel (open_dev : Except Nat Int)
    (hfd : ∀ fd, open_dev = Except.ok fd → 0 ≤ fd) :
    ((0 ≤ (nsm_init open_dev).1) ↔ ∃ fd, open_dev = Except.ok fd) ∧
    (∀ fd, open_dev = Except.ok fd → (nsm_init open_dev).1 = fd) ∧
    (∀ e, open_dev = Except.error e → (nsm_init open_dev).1 = -1) := by
  cases open_dev with
  | ok fd =>
    refine ⟨⟨fun _ => ⟨fd, rfl⟩, fun _ => hfd fd rfl⟩, ?_, ?_⟩
    · intro fd' h
      cases h
      rfl
    · intro e h
      cases h
  | error e =>
    refine ⟨⟨fun h => ?_, ?_⟩, ?_, ?_⟩
    · norm_num [nsm_init] at h
    · rintro ⟨fd, h⟩
      cases h
    · intro fd h
      cases h
    · intro e' h
      cases h
      rfl

/-- Witness for C6 at a failed open. -/
theorem C6_init_sentinel_witness :
    ((0 ≤ (nsm_init (Except.error 2)).1) ↔ ∃ fd, (Except.error 2 : Except Nat Int) = Except.ok fd) ∧
    (∀ fd, (Except.error 2 : Except Nat Int) = Except.ok fd → (nsm_init (Except.error 2)).1 = fd) ∧
    (∀ e, (Except.error 2 : Except Nat Int) = Except.error e → (nsm_init (Except.error 2)).1 = -1) :=
  C6_init_sentinel (Except.error 2) (fun fd h => by cases h)

/-- C7: `nsm_exit` returns unit for every integer handle value and
every behavior of the underlying close operation; a close failure is
observable only through the log level emitted (error on failure, debug
on success), never as a returned status or typed error. -/
theorem C7_exit_returns_unit (close_fn : Int → Except Nat Unit) (fd : Int) :
    (nsm_exit close_fn fd).1 = () ∧
    (∀ e, close_fn fd = Except.error e → (nsm_exit close_fn fd).2 = LogLevel.err) ∧
    (close_fn fd = Except.ok () → (nsm_exit close_fn fd).2 = LogLevel.debug) := by
  refine ⟨rfl, ?_, ?_⟩
  · intro e h
    unfold nsm_exit
    rw [h]
  · intro h
    unfold nsm_exit
    rw [h]

/-- Witness for C7 at handle -3 with a failing close. -/
theorem C7_exit_returns_unit_witness :
    (nsm_exit (fun _ => Except.error 9) (-3)).2 = LogLevel.err :=
  (C7_exit_returns_unit (fun _ => Except.error 9) (-3)).2.1 9 rfl

/-- C8: encoding is deterministic: logically identical requests
produce identical byte vectors under `nsm_encode_request_to_cbor` (the
encoder is a pure function of the request value). -/
theorem C8_encode_deterministic {Req : Type} (to_vec : Req → Option (List Nat))
    (r1 r2 : Req) (h : r1 = r2) :
    nsm_encode_request_to_cbor to_vec r1 = nsm_encode_request_to_cbor to_vec r2 := by
  rw [h]

/-- Witness for C8 at two equal concrete requests. -/
theorem C8_encode_deterministic_witness :
    nsm_encode_request_to_cbor (fun n : Nat => some [n]) 3 =
      nsm_encode_request_to_cbor (fun n : Nat => some [n]) 3 :=
  C8_encode_deterministic (fun n : Nat => some [n]) 3 3 rfl

/-- C9: when CBOR serialization of the request fails, the `unwrap`
inside `nsm_encode_request_to_cbor` panics (modelled as `none`), so
`nsm_process_request` panics too instead of returning a response; and
whenever serialization succeeds, `nsm_process_request` returns a
response (the path is total under that hypothesis). -/
theorem C9_encode_panic_propagates {Req α : Type} (ioctl : IoctlFn)
    (to_vec : Req → Option (List Nat)) (parse : List Nat → Option (Response α))
    (fd : Int) (request : Req) :
    (to_vec request = none →
      nsm_encode_request_to_cbor to_vec request = none ∧
      nsm_process_request ioctl to_vec parse fd request = none) ∧
    (∀ bytes, to_vec request = some bytes →
      (nsm_process_request ioctl to_vec parse fd request).isSome = true) := by
  constructor
  · intro h
    refine ⟨h, ?_⟩
    unfold nsm_process_request nsm_encode_request_to_cbor
    rw [h]
  · intro bytes h
    unfold nsm_process_request
    rw [show nsm_encode_request_to_cbor to_vec request = some bytes from h]
    by_cases hlen : bytes.length > NSM_REQUEST_MAX_SIZE
    · simp [hlen]
    · simp only [hlen, if_false]
      cases hstat : (ioctl fd ⟨bytes, List.replicate NSM_RESPONSE_MAX_SIZE 0⟩).2 with
      | none => rfl
      | some errno => by_cases h90 : errno = 90 <;> simp [h90]

/-- Witness for C9 with a serializer that fails on its input. -/
theorem C9_encode_panic_propagates_witness :
    nsm_encode_request_to_cbor (fun _ : Unit => (none : Option (List Nat))) () = none ∧
    nsm_process_request (fun _ _ => ([], none)) (fun _ : Unit => (none : Option (List Nat)))
      (fun _ => (none : Option (Response Unit))) 0 () = none :=
  (C9_encode_panic_propagates (fun _ _ => ([], none)) _ _ 0 ()).1 rfl

/-- C10: the failure branch discriminates solely on the presence of a
reported code and its equality with 90: any reported code other than
90, including 0 and negative values, yields
`Response.Error ErrorCode.InternalError`. -/
theorem C10_non_90_code_internal_error {Req α : Type} (ioctl : IoctlFn)
    (to_vec : Req → Option (List Nat)) (parse : List Nat → Option (Response α))
    (fd : Int) (request : Req) (bytes newresp : List Nat) (code : Int)
    (hencode : nsm_encode_request_to_cbor to_vec request = some bytes)
    (hsize : bytes.length ≤ NSM_REQUEST_MAX_SIZE)
    (hioctl : ioctl fd ⟨bytes, List.replicate NSM_RESPONSE_MAX_SIZE 0⟩ =
      (newresp, some code))
    (h90 : code ≠ 90) :
    nsm_process_request ioctl to_vec parse fd request =
      some (Response.Error ErrorCode.InternalError) := by
  unfold nsm_process_request
  rw [hencode]
  simp only [Nat.not_lt.mpr hsize, gt_iff_lt, if_false]
  rw [hioctl]
  simp [h90]

/-- Witness for C10 at the reported code 0, which the spec's "nonzero"
wording does not cover. -/
theorem C10_non_90_code_internal_error_witness :
    nsm_process_request (fun _ _ => ([], some 0)) (fun _ : Unit => some [])
      (fun _ => (none : Option (Response Unit))) 0 () =
      some (Response.Error ErrorCode.InternalError) :=
  C10_non_90_code_internal_error _ _ _ 0 () [] [] 0 rfl (by decide) rfl (by decide)
